import Mathlib

/-!
Verification of the db-ui database abstraction layer

Shallow embedding, in Lean 4, of the database abstraction layer of the
`db-ui` repository: the three engine adapters (PostgreSQL, MySQL, MSSQL),
the bracket-notation filter/sort parsing, the schema-for-AI formatter and
the connection factory, together with theorems settling the specification
claims about them.

Conventions used throughout:
* JavaScript runtime values appearing in driver rows are modelled by
  `JSValue`; JSON documents by `Json`.
* JavaScript numbers occurring in this layer are integers and are modelled
  by `Int`; `String(n)` agrees with `toString : Int → String` on them.
* `Date` instances are modelled by their epoch-milliseconds value.
* Database/driver interactions are modelled by explicit oracles
  (an `Engine` structure): the adapter code is embedded faithfully, the
  engine's answers are parameters.
* A thrown JavaScript exception is modelled by `Except JSErr`; a function
  that never throws in the embedded fragment returns plainly.
-/

namespace DbUi

/-- A left-brace character as a string (written via an escape so that it can
be concatenated in generated JSON text). -/
def lbrace : String := "\x7b"

/-- A right-brace character as a string. -/
def rbrace : String := "\x7d"

/-- JSON documents, as produced by the drivers for JSON-typed columns. -/
inductive Json where
  | null : Json
  | bool (b : Bool) : Json
  | num (n : Int) : Json
  | str (s : String) : Json
  | arr (elems : List Json) : Json
  | obj (fields : List (String × Json)) : Json

/-- Hexadecimal digit (lower case), for JSON `\u00XX` escapes. -/
def hexDigit (n : Nat) : Char :=
  if n < 10 then Char.ofNat (48 + n) else Char.ofNat (87 + n)

/-- Escaping of a single character inside a JSON string literal, as
performed by `JSON.stringify`. -/
def jsonEscapeChar (c : Char) : List Char :=
  if c = '"' then ['\\', '"']
  else if c = '\\' then ['\\', '\\']
  else if c = '\n' then ['\\', 'n']
  else if c = '\r' then ['\\', 'r']
  else if c = '\t' then ['\\', 't']
  else if c = '\x08' then ['\\', 'b']
  else if c = '\x0c' then ['\\', 'f']
  else if c.toNat < 32 then
    ['\\', 'u', '0', '0', hexDigit (c.toNat / 16), hexDigit (c.toNat % 16)]
  else [c]

/-- A JSON string literal (quotes plus escaping), as in `JSON.stringify`. -/
def jsonQuote (s : String) : String :=
  "\"" ++ String.mk (s.toList.map jsonEscapeChar).flatten ++ "\""

mutual

/-- Embeds `JSON.stringify` on a JSON document (no replacer, no spacing). -/
def Json.stringify : Json → String
  | .null => "null"
  | .bool b => cond b "true" "false"
  | .num n => toString n
  | .str s => jsonQuote s
  | .arr elems => "[" ++ Json.stringifyArr elems ++ "]"
  | .obj fields => lbrace ++ Json.stringifyObj fields ++ rbrace

/-- Comma-separated `JSON.stringify` of array elements. -/
def Json.stringifyArr : List Json → String
  | [] => ""
  | [x] => Json.stringify x
  | x :: y :: rest => Json.stringify x ++ "," ++ Json.stringifyArr (y :: rest)

/-- Comma-separated `"key":value` pairs of an object. -/
def Json.stringifyObj : List (String × Json) → String
  | [] => ""
  | [(k, v)] => jsonQuote k ++ ":" ++ Json.stringify v
  | (k, v) :: f :: rest =>
    jsonQuote k ++ ":" ++ Json.stringify v ++ "," ++ Json.stringifyObj (f :: rest)

end

mutual

/-- JavaScript `String(x)` for a value of `typeof` "object": a plain object
yields `"[object Object]"`, an array joins its elements with commas
(`Array.prototype.toString`).  The primitive cases record `String(x)` for the
corresponding primitives (reachable only through array elements here). -/
def jsStringOfJson : Json → String
  | .null => "null"
  | .bool b => cond b "true" "false"
  | .num n => toString n
  | .str s => s
  | .arr elems => jsArrJoin elems
  | .obj _ => "[object Object]"

/-- Embeds `Array.prototype.join ","`: `null` elements render as the empty string,
other elements via `String(x)`. -/
def jsArrJoin : List Json → String
  | [] => ""
  | [x] => jsArrElem x
  | x :: y :: rest => jsArrElem x ++ "," ++ jsArrJoin (y :: rest)

/-- A single array element inside `Array.prototype.join`. -/
def jsArrElem : Json → String
  | .null => ""
  | .bool b => cond b "true" "false"
  | .num n => toString n
  | .str s => s
  | .arr elems => jsArrJoin elems
  | .obj _ => "[object Object]"

end

/-- Gregorian calendar date from a count of days since 1970-01-01
(the standard civil-from-days computation; all divisions are Euclidean,
matching floor division on the ranges involved). -/
def civilFromDays (z0 : Int) : Int × Int × Int :=
  let z := z0 + 719468
  let era := z.ediv 146097
  let doe := z.emod 146097
  let yoe := (doe - doe.ediv 1460 + doe.ediv 36524 - doe.ediv 146096).ediv 365
  let y := yoe + era * 400
  let doy := doe - (365 * yoe + yoe.ediv 4 - yoe.ediv 100)
  let mp := (5 * doy + 2).ediv 153
  let d := doy - (153 * mp + 2).ediv 5 + 1
  let m := mp + (if mp < 10 then (3 : Int) else (-9 : Int))
  (y + (if m ≤ 2 then (1 : Int) else (0 : Int)), m, d)

/-- Zero-padding to two digits (for in-range fields). -/
def pad2 (n : Int) : String :=
  if n < 10 then "0" ++ toString n else toString n

/-- Zero-padding to three digits. -/
def pad3 (n : Int) : String :=
  if n < 10 then "00" ++ toString n
  else if n < 100 then "0" ++ toString n
  else toString n

/-- Zero-padding to four digits (years 0–9999, the range this layer uses). -/
def pad4 (n : Int) : String :=
  if n < 10 then "000" ++ toString n
  else if n < 100 then "00" ++ toString n
  else if n < 1000 then "0" ++ toString n
  else toString n

/-- Embeds `Date.prototype.toISOString` on a `Date` holding `ms` epoch
milliseconds: `YYYY-MM-DDTHH:mm:ss.sssZ` (UTC). -/
def toISOStringFromMs (ms : Int) : String :=
  let day := ms.ediv 86400000
  let msOfDay := ms.emod 86400000
  let ymd := civilFromDays day
  let hh := msOfDay.ediv 3600000
  let mi := (msOfDay.emod 3600000).ediv 60000
  let ss := (msOfDay.emod 60000).ediv 1000
  let msr := msOfDay.emod 1000
  pad4 ymd.1 ++ "-" ++ pad2 ymd.2.1 ++ "-" ++ pad2 ymd.2.2 ++ "T" ++
    pad2 hh ++ ":" ++ pad2 mi ++ ":" ++ pad2 ss ++ "." ++ pad3 msr ++ "Z"

/-- A JavaScript value as it can appear in a driver row handed to the
adapters' `convertRowToStrings`: `jsObj` covers every value whose `typeof`
is "object" other than `null` (plain objects and arrays from JSON columns),
`jsDate` is a `Date` instance carrying its epoch milliseconds. -/
inductive JSValue where
  | jsNull : JSValue
  | jsBool (b : Bool) : JSValue
  | jsNum (n : Int) : JSValue
  | jsStr (s : String) : JSValue
  | jsDate (ms : Int) : JSValue
  | jsObj (j : Json) : JSValue

/-- A driver row: ordered association of column names to JavaScript values. -/
abbrev RowJS := List (String × JSValue)

/-- A returned row: ordered association of column names to strings
(the repository's `TableDataRow`). -/
abbrev TableDataRow := List (String × String)

namespace PostgreSQLConnection

/-- Embeds `PostgreSQLConnection.convertRowToStrings`, per value: `null`/`undefined`
becomes `""`, booleans `"true"`/`"false"`, `Date`s their ISO string, numbers
`String(value)`, remaining objects `JSON.stringify(value)`, anything else
`String(value)`. -/
def convertValue : JSValue → String
  | .jsNull => ""
  | .jsBool b => cond b "true" "false"
  | .jsDate ms => toISOStringFromMs ms
  | .jsNum n => toString n
  | .jsObj j => Json.stringify j
  | .jsStr s => s

/-- Embeds `PostgreSQLConnection.convertRowToStrings` over a whole row. -/
def convertRowToStrings (row : RowJS) : TableDataRow :=
  row.map (fun kv => (kv.1, convertValue kv.2))

end PostgreSQLConnection

namespace MySQLConnection

/-- Embeds `MySQLConnection.convertRowToStrings`, per value (same branch structure
as the PostgreSQL adapter: null, boolean, Date, number, object, fallback). -/
def convertValue : JSValue → String
  | .jsNull => ""
  | .jsBool b => cond b "true" "false"
  | .jsDate ms => toISOStringFromMs ms
  | .jsNum n => toString n
  | .jsObj j => Json.stringify j
  | .jsStr s => s

/-- Embeds `MySQLConnection.convertRowToStrings` over a whole row. -/
def convertRowToStrings (row : RowJS) : TableDataRow :=
  row.map (fun kv => (kv.1, convertValue kv.2))

end MySQLConnection

namespace MSSQLConnection

/-- Embeds `MSSQLConnection.convertRowToStrings`, per value: only `null`/`undefined`
and `Date` get dedicated branches; every other value goes through
`String(value)` — so booleans and numbers print as usual but object values
render as `"[object Object]"` (or the array join), not as JSON. -/
def convertValue : JSValue → String
  | .jsNull => ""
  | .jsDate ms => toISOStringFromMs ms
  | .jsBool b => cond b "true" "false"
  | .jsNum n => toString n
  | .jsStr s => s
  | .jsObj j => jsStringOfJson j

/-- Embeds `MSSQLConnection.convertRowToStrings` over a whole row. -/
def convertRowToStrings (row : RowJS) : TableDataRow :=
  row.map (fun kv => (kv.1, convertValue kv.2))

end MSSQLConnection

/-- The uniform normalization stated by the specification: null becomes the
empty string, booleans `"true"`/`"false"`, dates their ISO-8601 serialization,
JSON object values their JSON serialization, numbers their decimal
representation, strings themselves. -/
def specNormalizeValue : JSValue → String
  | .jsNull => ""
  | .jsBool b => cond b "true" "false"
  | .jsDate ms => toISOStringFromMs ms
  | .jsObj j => Json.stringify j
  | .jsNum n => toString n
  | .jsStr s => s

/-- The specification's normalization over a whole row. -/
def specNormalizeRow (row : RowJS) : TableDataRow :=
  row.map (fun kv => (kv.1, specNormalizeValue kv.2))

/-- C1, counterexample: in the MSSQL adapter a JSON object value is rendered
by `String(value)` as `"[object Object]"`, not as its JSON serialization, so
the uniform-normalization claim fails for the MSSQL adapter on any row
holding an object value. -/
theorem mssql_object_value_breaks_uniform_normalization :
    MSSQLConnection.convertRowToStrings
        [("j", JSValue.jsObj (Json.obj [("a", Json.num 1)]))] =
      [("j", "[object Object]")] ∧
    specNormalizeRow [("j", JSValue.jsObj (Json.obj [("a", Json.num 1)]))] =
      [("j", "\x7b\"a\":1\x7d")] ∧
    MSSQLConnection.convertRowToStrings
        [("j", JSValue.jsObj (Json.obj [("a", Json.num 1)]))] ≠
      specNormalizeRow [("j", JSValue.jsObj (Json.obj [("a", Json.num 1)]))] := by
  exact ⟨rfl, rfl, by decide⟩

/-- C1, amended: the PostgreSQL and MySQL `convertRowToStrings` realize the
specification's uniform normalization on every value; the MSSQL one agrees
on every value except objects, which it renders with `String(value)`
(`"[object Object]"` for plain objects) instead of their JSON
serialization. -/
theorem convertRowToStrings_normalization :
    (∀ row : RowJS, PostgreSQLConnection.convertRowToStrings row = specNormalizeRow row) ∧
    (∀ row : RowJS, MySQLConnection.convertRowToStrings row = specNormalizeRow row) ∧
    (∀ v : JSValue,
      MSSQLConnection.convertValue v = specNormalizeValue v ∨
      ∃ j, v = JSValue.jsObj j ∧ MSSQLConnection.convertValue v = jsStringOfJson j) := by
  refine ⟨fun row => ?_, fun row => ?_, fun v => ?_⟩
  · unfold PostgreSQLConnection.convertRowToStrings specNormalizeRow
    apply List.map_congr_left
    intro kv _
    cases h : kv.2 <;> rfl
  · unfold MySQLConnection.convertRowToStrings specNormalizeRow
    apply List.map_congr_left
    intro kv _
    cases h : kv.2 <;> rfl
  · cases v with
    | jsObj j => exact Or.inr ⟨j, rfl, rfl⟩
    | jsNull => exact Or.inl rfl
    | jsBool b => exact Or.inl rfl
    | jsNum n => exact Or.inl rfl
    | jsStr s => exact Or.inl rfl
    | jsDate ms => exact Or.inl rfl

/-! ## Filters, sorts, and the paginated read (`getTableData`) -/

/-- A filter descriptor (`lib/types.ts`): column, operator, value. -/
structure Filter where
  column : String
  operator : String
  value : String
deriving DecidableEq, Repr

/-- A sort descriptor (the source's `Sort`; renamed because `Sort` is a
Lean keyword): column and direction. -/
structure SortDescr where
  column : String
  direction : String
deriving DecidableEq, Repr

/-- A thrown JavaScript value: either an `Error` instance (carrying its
`message`) or any other value (carrying its `String(...)` rendering). -/
inductive JSErr where
  | errObj (msg : String)
  | other (repr : String)
deriving DecidableEq, Repr

/-- The repository's `TableDataResult` shape. -/
structure TableDataResult where
  rows : List TableDataRow
  totalCount : Nat
  page : Nat
  pageSize : Nat
  totalPages : Nat
  error : Option String
deriving DecidableEq, Repr

/-- Embeds `Math.ceil(a / b)` on the natural numbers this layer divides. -/
def jsCeilDiv (a b : Nat) : Nat := (a + b - 1) / b

/-- The value `jsCeilDiv a b` is the exact rational ceiling of the division
when the divisor is positive. -/
theorem jsCeilDiv_eq_ceil (a b : Nat) (hb : 0 < b) :
    jsCeilDiv a b = ⌈(a : ℚ) / (b : ℚ)⌉₊ := by
  unfold jsCeilDiv
  have hbq : (0 : ℚ) < (b : ℚ) := by exact_mod_cast hb
  rcases Nat.eq_zero_or_pos ((a + b - 1) / b) with hq | hq
  · have hlt : a + b - 1 < b := (Nat.div_eq_zero_iff hb).mp hq
    have ha : a = 0 := by omega
    subst ha
    rw [hq]
    symm
    simp
  · symm
    rw [Nat.ceil_eq_iff (Nat.pos_iff_ne_zero.mp hq)]
    set q := (a + b - 1) / b with hqdef
    have hmul_le : b * q + (a + b - 1) % b = a + b - 1 := Nat.div_add_mod (a + b - 1) b
    have hmod_lt : (a + b - 1) % b < b := Nat.mod_lt (a + b - 1) hb
    have ha1 : 1 ≤ a := by
      by_contra hcon
      have ha0 : a = 0 := by omega
      subst ha0
      have hz : q = 0 := by
        rw [hqdef]
        exact Nat.div_eq_of_lt (by omega)
      omega
    constructor
    · rw [lt_div_iff₀ hbq]
      have hnat : (q - 1) * b < a := by
        have hsub : (q - 1) * b = b * q - b := by
          rw [Nat.sub_mul, one_mul, Nat.mul_comm]
        rw [hsub]
        omega
      calc ((q - 1 : Nat) : ℚ) * (b : ℚ) = (((q - 1) * b : Nat) : ℚ) := by push_cast; ring
      _ < (a : ℚ) := by exact_mod_cast hnat
    · rw [div_le_iff₀ hbq]
      have hnat : a ≤ b * q := by omega
      calc (a : ℚ) ≤ ((b * q : Nat) : ℚ) := by exact_mod_cast hnat
      _ = (q : ℚ) * (b : ℚ) := by push_cast; ring

/-- Which of the two SQL statements of `getTableData` has been issued. -/
inductive QueryKind where
  | countQ : QueryKind
  | dataQ : QueryKind
deriving DecidableEq, Repr

/-- Oracle for one `getTableData` call: the target table's stored rows, the
engine's filter semantics (`rowMatches`, the source's `matches`-style predicate), its `ORDER BY` semantics (`sortRows`),
and injected failure outcomes for the pool checkout / connection check, the
`COUNT(*)` statement, and the data statement (`none` = the step succeeds).
When the count statement succeeds it reports the number of rows matching all
filters; when the data statement succeeds it returns the matching rows,
ordered, with the dialect's `OFFSET`/`LIMIT` (or `OFFSET ... FETCH NEXT`)
applied. -/
structure Engine where
  table : List RowJS
  rowMatches : Filter → RowJS → Bool
  sortRows : List SortDescr → List RowJS → List RowJS
  connectFailure : Option JSErr
  countFailure : Option JSErr
  dataFailure : Option JSErr

/-- The rows of `eng.table` matching every filter (the `WHERE` clause is the
`AND`-conjunction of the filter predicates). -/
def Engine.filtered (eng : Engine) (filters : List Filter) : List RowJS :=
  eng.table.filter (fun r => filters.all (fun f => eng.rowMatches f r))

/-- Embeds `PostgreSQLConnection.getTableData`: pool checkout, `COUNT(*)` with the
filters, then the data query with `LIMIT pageSize OFFSET (page-1)*pageSize`;
no exception is caught (the `finally` only releases the client), so any
failure propagates.  Returns the outcome together with the list of SQL
statements that were issued. -/
def PostgreSQLConnection.getTableData (eng : Engine) (page pageSize : Nat)
    (filters : List Filter) (sorts : List SortDescr) :
    Except JSErr TableDataResult × List QueryKind :=
  match eng.connectFailure with
  | some e => (.error e, [])
  | none =>
    let offset := (page - 1) * pageSize
    match eng.countFailure with
    | some e => (.error e, [.countQ])
    | none =>
      let totalRows := (eng.filtered filters).length
      match eng.dataFailure with
      | some e => (.error e, [.countQ, .dataQ])
      | none =>
        let rows := (((eng.sortRows sorts (eng.filtered filters)).drop offset).take
          pageSize).map PostgreSQLConnection.convertRowToStrings
        (.ok { rows := rows, totalCount := totalRows, page := page,
               pageSize := pageSize, totalPages := jsCeilDiv totalRows pageSize,
               error := none }, [.countQ, .dataQ])

/-- Embeds `MySQLConnection.getTableData`: same structure as the PostgreSQL one, but
on an already-established connection (no checkout step) and with
`LIMIT pageSize OFFSET offset` interpolated; again nothing is caught. -/
def MySQLConnection.getTableData (eng : Engine) (page pageSize : Nat)
    (filters : List Filter) (sorts : List SortDescr) :
    Except JSErr TableDataResult × List QueryKind :=
  let offset := (page - 1) * pageSize
  match eng.countFailure with
  | some e => (.error e, [.countQ])
  | none =>
    let totalRows := (eng.filtered filters).length
    match eng.dataFailure with
    | some e => (.error e, [.countQ, .dataQ])
    | none =>
      let rows := (((eng.sortRows sorts (eng.filtered filters)).drop offset).take
        pageSize).map MySQLConnection.convertRowToStrings
      (.ok { rows := rows, totalCount := totalRows, page := page,
             pageSize := pageSize, totalPages := jsCeilDiv totalRows pageSize,
             error := none }, [.countQ, .dataQ])

/-- Embeds `MSSQLConnection.getTableData`: `ensureConnected`, `COUNT(*)`, then the
data query with `OFFSET offset ROWS FETCH NEXT pageSize ROWS ONLY`; its
catch clause just rethrows the error, so failures propagate exactly
as in the other adapters. -/
def MSSQLConnection.getTableData (eng : Engine) (page pageSize : Nat)
    (filters : List Filter) (sorts : List SortDescr) :
    Except JSErr TableDataResult × List QueryKind :=
  match eng.connectFailure with
  | some e => (.error e, [])
  | none =>
    let offset := (page - 1) * pageSize
    match eng.countFailure with
    | some e => (.error e, [.countQ])
    | none =>
      let totalRows := (eng.filtered filters).length
      match eng.dataFailure with
      | some e => (.error e, [.countQ, .dataQ])
      | none =>
        let rows := (((eng.sortRows sorts (eng.filtered filters)).drop offset).take
          pageSize).map MSSQLConnection.convertRowToStrings
        (.ok { rows := rows, totalCount := totalRows, page := page,
               pageSize := pageSize, totalPages := jsCeilDiv totalRows pageSize,
               error := none }, [.countQ, .dataQ])

/-- A concrete engine whose `COUNT(*)` statement fails (as a malformed
filter causing a type-mismatch error would make it do). -/
def failingCountEngine : Engine where
  table := [[("id", JSValue.jsNum 1)]]
  rowMatches := fun _ _ => true
  sortRows := fun _ rows => rows
  connectFailure := none
  countFailure := some (JSErr.errObj "operator does not exist")
  dataFailure := none

/-- C2, counterexample: when the count query fails, all three adapters
propagate the exception — none of them returns a `TableDataResult` with a
populated `error` field. -/
theorem getTableData_count_failure_counterexample :
    PostgreSQLConnection.getTableData failingCountEngine 1 50 [] [] =
      (Except.error (JSErr.errObj "operator does not exist"), [QueryKind.countQ]) ∧
    MySQLConnection.getTableData failingCountEngine 1 50 [] [] =
      (Except.error (JSErr.errObj "operator does not exist"), [QueryKind.countQ]) ∧
    MSSQLConnection.getTableData failingCountEngine 1 50 [] [] =
      (Except.error (JSErr.errObj "operator does not exist"), [QueryKind.countQ]) :=
  ⟨rfl, rfl, rfl⟩

/-- C2, amended: in all three adapters a failing count query makes
`getTableData` throw (the count error propagates unchanged) and the data
query is never issued; no `TableDataResult` is produced.  (The legacy
PostgreSQL-only module `lib/db.ts` does return an error-carrying result in
this situation, but the adapters do not.) -/
theorem getTableData_count_failure_propagates :
    ∀ (eng : Engine) (page pageSize : Nat) (filters : List Filter)
      (sorts : List SortDescr) (e : JSErr),
      eng.countFailure = some e →
      (eng.connectFailure = none →
        PostgreSQLConnection.getTableData eng page pageSize filters sorts =
          (Except.error e, [QueryKind.countQ])) ∧
      MySQLConnection.getTableData eng page pageSize filters sorts =
        (Except.error e, [QueryKind.countQ]) ∧
      (eng.connectFailure = none →
        MSSQLConnection.getTableData eng page pageSize filters sorts =
          (Except.error e, [QueryKind.countQ])) := by
  intro eng page pageSize filters sorts e hc
  obtain ⟨table, rowMatches, sortRows, connectFailure, countFailure, dataFailure⟩ := eng
  subst hc
  exact ⟨fun hcon => by subst hcon; rfl, rfl, fun hcon => by subst hcon; rfl⟩

/-- Witness for the amended C2 at a concrete engine. -/
theorem getTableData_count_failure_propagates_witness :
    PostgreSQLConnection.getTableData failingCountEngine 2 10 [] [] =
      (Except.error (JSErr.errObj "operator does not exist"), [QueryKind.countQ]) :=
  (getTableData_count_failure_propagates failingCountEngine 2 10 [] []
    (JSErr.errObj "operator does not exist") rfl).1 rfl

/-- A concrete engine holding three rows, with no failures. -/
def okEngine : Engine where
  table := [[("id", JSValue.jsNum 1)], [("id", JSValue.jsNum 2)], [("id", JSValue.jsNum 3)]]
  rowMatches := fun _ _ => true
  sortRows := fun _ rows => rows
  connectFailure := none
  countFailure := none
  dataFailure := none

/-- C4: whenever a `getTableData` call succeeds with a positive page size,
the returned page holds at most `pageSize` rows, `totalCount` is the number
of rows matching the filters (ignoring pagination), and `totalPages` is the
exact ceiling of `totalCount / pageSize` — for all three adapters. -/
theorem getTableData_pagination_bounds :
    (∀ (eng : Engine) (page pageSize : Nat) (filters : List Filter)
       (sorts : List SortDescr) (r : TableDataResult) (tr : List QueryKind),
       0 < pageSize →
       PostgreSQLConnection.getTableData eng page pageSize filters sorts = (Except.ok r, tr) →
       r.rows.length ≤ pageSize ∧ r.totalCount = (eng.filtered filters).length ∧
         r.totalPages = ⌈(r.totalCount : ℚ) / (pageSize : ℚ)⌉₊) ∧
    (∀ (eng : Engine) (page pageSize : Nat) (filters : List Filter)
       (sorts : List SortDescr) (r : TableDataResult) (tr : List QueryKind),
       0 < pageSize →
       MySQLConnection.getTableData eng page pageSize filters sorts = (Except.ok r, tr) →
       r.rows.length ≤ pageSize ∧ r.totalCount = (eng.filtered filters).length ∧
         r.totalPages = ⌈(r.totalCount : ℚ) / (pageSize : ℚ)⌉₊) ∧
    (∀ (eng : Engine) (page pageSize : Nat) (filters : List Filter)
       (sorts : List SortDescr) (r : TableDataResult) (tr : List QueryKind),
       0 < pageSize →
       MSSQLConnection.getTableData eng page pageSize filters sorts = (Except.ok r, tr) →
       r.rows.length ≤ pageSize ∧ r.totalCount = (eng.filtered filters).length ∧
         r.totalPages = ⌈(r.totalCount : ℚ) / (pageSize : ℚ)⌉₊) := by
  refine ⟨?_, ?_, ?_⟩
  · intro eng page pageSize filters sorts r tr hps h
    obtain ⟨table, rowMatches, sortRows, connectFailure, countFailure, dataFailure⟩ := eng
    cases connectFailure with
    | some e => exact absurd h (by simp [PostgreSQLConnection.getTableData])
    | none =>
    cases countFailure with
    | some e => exact absurd h (by simp [PostgreSQLConnection.getTableData])
    | none =>
    cases dataFailure with
    | some e => exact absurd h (by simp [PostgreSQLConnection.getTableData])
    | none =>
      simp only [PostgreSQLConnection.getTableData, Prod.mk.injEq, Except.ok.injEq] at h
      obtain ⟨hr, -⟩ := h
      subst hr
      refine ⟨?_, rfl, jsCeilDiv_eq_ceil _ _ hps⟩
      simp [List.length_take]
  · intro eng page pageSize filters sorts r tr hps h
    obtain ⟨table, rowMatches, sortRows, connectFailure, countFailure, dataFailure⟩ := eng
    cases countFailure with
    | some e => exact absurd h (by simp [MySQLConnection.getTableData])
    | none =>
    cases dataFailure with
    | some e => exact absurd h (by simp [MySQLConnection.getTableData])
    | none =>
      simp only [MySQLConnection.getTableData, Prod.mk.injEq, Except.ok.injEq] at h
      obtain ⟨hr, -⟩ := h
      subst hr
      refine ⟨?_, rfl, jsCeilDiv_eq_ceil _ _ hps⟩
      simp [List.length_take]
  · intro eng page pageSize filters sorts r tr hps h
    obtain ⟨table, rowMatches, sortRows, connectFailure, countFailure, dataFailure⟩ := eng
    cases connectFailure with
    | some e => exact absurd h (by simp [MSSQLConnection.getTableData])
    | none =>
    cases countFailure with
    | some e => exact absurd h (by simp [MSSQLConnection.getTableData])
    | none =>
    cases dataFailure with
    | some e => exact absurd h (by simp [MSSQLConnection.getTableData])
    | none =>
      simp only [MSSQLConnection.getTableData, Prod.mk.injEq, Except.ok.injEq] at h
      obtain ⟨hr, -⟩ := h
      subst hr
      refine ⟨?_, rfl, jsCeilDiv_eq_ceil _ _ hps⟩
      simp [List.length_take]

/-- Witness for C4 at a concrete engine (three rows, page size two). -/
theorem getTableData_pagination_bounds_witness :
    (⟨[[("id", "1")], [("id", "2")]], 3, 1, 2, 2, none⟩ : TableDataResult).rows.length ≤ 2 ∧
    (⟨[[("id", "1")], [("id", "2")]], 3, 1, 2, 2, none⟩ : TableDataResult).totalCount =
      (okEngine.filtered []).length ∧
    (⟨[[("id", "1")], [("id", "2")]], 3, 1, 2, 2, none⟩ : TableDataResult).totalPages =
      ⌈(((⟨[[("id", "1")], [("id", "2")]], 3, 1, 2, 2, none⟩ : TableDataResult).totalCount : ℚ)) / ((2 : Nat) : ℚ)⌉₊ :=
  getTableData_pagination_bounds.1 okEngine 1 2 [] []
    ⟨[[("id", "1")], [("id", "2")]], 3, 1, 2, 2, none⟩ [QueryKind.countQ, QueryKind.dataQ]
    (by decide) rfl

/-! ## Raw query execution (`executeQuery`) -/

/-- The repository's `QueryResult` shape. -/
structure QueryResult where
  success : Bool
  rows : List TableDataRow
  rowCount : Nat
  fields : List String
  error : Option String
deriving DecidableEq, Repr

/-- Embeds `error instanceof Error ? error.message : "Unknown error occurred"`
(the PostgreSQL and MSSQL adapters' catch clause). -/
def errMessageOrUnknown : JSErr → String
  | .errObj msg => msg
  | .other _ => "Unknown error occurred"

/-- Embeds `error instanceof Error ? error.message : String(error)`
(the MySQL adapter's catch clause). -/
def mysqlErrMessage : JSErr → String
  | .errObj msg => msg
  | .other s => s

/-- What the `pg` driver hands back for a successful query: rows, a possibly
null `rowCount`, and a possibly absent `fields` array of column names. -/
structure PGRawResult where
  rows : List RowJS
  rowCount : Option Nat
  fields : Option (List String)

/-- What `mysql2`'s `execute` hands back for a successful (row-returning)
query: the rows and the field descriptors' names. -/
structure MySQLRawResult where
  rows : List RowJS
  fields : List String

/-- What the `mssql` driver hands back for a successful query: the recordset
and the `rowsAffected` array. -/
structure MSSQLRawResult where
  recordset : List RowJS
  rowsAffected : List Nat

/-- Embeds `PostgreSQLConnection.executeQuery`: the pool checkout
(`this.pool.connect()`) happens before the `try`, so its failure propagates;
the query itself runs inside `try`/`catch`, failures becoming a
`success: false` result value. -/
def PostgreSQLConnection.executeQuery (connectOutcome : Option JSErr)
    (queryOutcome : Except JSErr PGRawResult) : Except JSErr QueryResult :=
  match connectOutcome with
  | some e => .error e
  | none =>
    match queryOutcome with
    | .ok res =>
      .ok { success := true, rows := res.rows.map PostgreSQLConnection.convertRowToStrings,
            rowCount := res.rowCount.getD 0, fields := res.fields.getD [], error := none }
    | .error err =>
      .ok { success := false, rows := [], rowCount := 0, fields := [],
            error := some (errMessageOrUnknown err) }

/-- Embeds `MySQLConnection.executeQuery`: the whole body sits inside `try`/`catch`
on an already-established connection, so the function returns a plain
`QueryResult` — it cannot throw at all in this embedding. -/
def MySQLConnection.executeQuery (queryOutcome : Except JSErr MySQLRawResult) :
    QueryResult :=
  match queryOutcome with
  | .ok res =>
    { success := true, rows := res.rows.map MySQLConnection.convertRowToStrings,
      rowCount := res.rows.length, fields := res.fields, error := none }
  | .error err =>
    { success := false, rows := [], rowCount := 0, fields := [],
      error := some (mysqlErrMessage err) }

/-- Embeds `MSSQLConnection.executeQuery`: `ensureConnected()` runs before the
`try`, so a connection failure propagates; a query failure is caught.  On
success, `rowCount` is `rowsAffected[0] || 0` and `fields` is
`Object.keys(recordset[0] || ...)`. -/
def MSSQLConnection.executeQuery (connectOutcome : Option JSErr)
    (queryOutcome : Except JSErr MSSQLRawResult) : Except JSErr QueryResult :=
  match connectOutcome with
  | some e => .error e
  | none =>
    match queryOutcome with
    | .ok res =>
      .ok { success := true, rows := res.recordset.map MSSQLConnection.convertRowToStrings,
            rowCount := res.rowsAffected.head?.getD 0,
            fields := (res.recordset.head?.getD []).map Prod.fst, error := none }
    | .error err =>
      .ok { success := false, rows := [], rowCount := 0, fields := [],
            error := some (errMessageOrUnknown err) }

/-- C3, counterexample: a failure while establishing/checking the connection
(pool checkout for PostgreSQL, `ensureConnected` for MSSQL) happens before
the `try` block, so `executeQuery` throws it instead of capturing it. -/
theorem executeQuery_connect_failure_counterexample :
    PostgreSQLConnection.executeQuery (some (JSErr.errObj "ECONNREFUSED"))
        (Except.ok ⟨[], none, none⟩) =
      Except.error (JSErr.errObj "ECONNREFUSED") ∧
    MSSQLConnection.executeQuery (some (JSErr.errObj "ECONNREFUSED"))
        (Except.ok ⟨[], []⟩) =
      Except.error (JSErr.errObj "ECONNREFUSED") :=
  ⟨rfl, rfl⟩

/-- C3, amended: query failures are captured as
`success: false, error: message, rows: [], rowCount: 0, fields: []` values in
all three adapters (MySQL's `executeQuery` cannot throw at all), but for
PostgreSQL and MSSQL a failure establishing or checking the connection
occurs before the `try` block and propagates as a thrown exception. -/
theorem executeQuery_error_channel :
    (∀ e : JSErr, MySQLConnection.executeQuery (Except.error e) =
      { success := false, rows := [], rowCount := 0, fields := [],
                  error := some (mysqlErrMessage e) }) ∧
    (∀ e : JSErr, PostgreSQLConnection.executeQuery none (Except.error e) =
      Except.ok { success := false, rows := [], rowCount := 0, fields := [],
                  error := some (errMessageOrUnknown e) }) ∧
    (∀ (e : JSErr) (queryOutcome : Except JSErr PGRawResult),
      PostgreSQLConnection.executeQuery (some e) queryOutcome = Except.error e) ∧
    (∀ e : JSErr, MSSQLConnection.executeQuery none (Except.error e) =
      Except.ok { success := false, rows := [], rowCount := 0, fields := [],
                  error := some (errMessageOrUnknown e) }) ∧
    (∀ (e : JSErr) (queryOutcome : Except JSErr MSSQLRawResult),
      MSSQLConnection.executeQuery (some e) queryOutcome = Except.error e) :=
  ⟨fun _ => rfl, fun _ => rfl, fun _ _ => rfl, fun _ => rfl, fun _ _ => rfl⟩

/-! ## Table listing (`getTables`) -/

/-- The repository's `TableInfo` shape. -/
structure TableInfo where
  table_name : String
  schema_name : String
  full_table_name : String
  table_type : String
deriving DecidableEq, Repr

/-- A row of the engine's `information_schema.tables` catalog. -/
structure CatalogTable where
  schema : String
  name : String
  tableType : String
deriving DecidableEq, Repr

/-- The PostgreSQL adapter's system-schema denylist. -/
def pgSystemSchemas : List String := ["information_schema", "pg_catalog", "pg_toast"]

/-- The MySQL adapter's system-schema denylist. -/
def mysqlSystemSchemas : List String :=
  ["information_schema", "performance_schema", "mysql", "sys"]

/-- The MSSQL adapter's system-schema denylist. -/
def mssqlSystemSchemas : List String :=
  ["INFORMATION_SCHEMA", "sys", "db_owner", "db_accessadmin", "db_securityadmin",
   "db_ddladmin", "db_backupoperator", "db_datareader", "db_datawriter",
   "db_denydatareader", "db_denydatawriter"]

/-- The `WHERE` clause of the `getTables` catalog query: schema not in the
denylist, type `BASE TABLE` or `VIEW`. -/
def visibleIn (deny : List String) (t : CatalogTable) : Bool :=
  (!deny.contains t.schema) && (t.tableType == "BASE TABLE" || t.tableType == "VIEW")

/-- Strict lexicographic comparison of character lists (the codepoint-wise
string collation the embedding uses for SQL `ORDER BY` on text). -/
def charListLt : List Char → List Char → Bool
  | [], [] => false
  | [], _ :: _ => true
  | _ :: _, [] => false
  | a :: as, b :: bs =>
    if a < b then true else if b < a then false else charListLt as bs

theorem charListLt_nil_right (as : List Char) : charListLt as [] = false := by
  cases as <;> rfl

theorem charListLt_irrefl (as : List Char) : charListLt as as = false := by
  induction as with
  | nil => rfl
  | cons a as ih => simp [charListLt, lt_irrefl, ih]

theorem charListLt_trans :
    ∀ as bs cs : List Char, charListLt as bs = true → charListLt bs cs = true →
      charListLt as cs = true := by
  intro as
  induction as with
  | nil =>
    intro bs cs h1 h2
    cases cs with
    | nil =>
      rw [charListLt_nil_right] at h2
      exact absurd h2 (by simp)
    | cons c cs => rfl
  | cons a as ih =>
    intro bs cs h1 h2
    cases bs with
    | nil => simp [charListLt] at h1
    | cons b bs =>
      cases cs with
      | nil => rw [charListLt_nil_right] at h2; exact absurd h2 (by simp)
      | cons c cs =>
        rw [charListLt] at h1 h2 ⊢
        by_cases hab : a < b
        · by_cases hbc : b < c
          · rw [if_pos (lt_trans hab hbc)]
          · rw [if_neg hbc] at h2
            by_cases hcb : c < b
            · rw [if_pos hcb] at h2; exact absurd h2 (by simp)
            · have hbceq : b = c := le_antisymm (not_lt.mp hcb) (not_lt.mp hbc)
              rw [if_pos (hbceq ▸ hab)]
        · rw [if_neg hab] at h1
          by_cases hba : b < a
          · rw [if_pos hba] at h1; exact absurd h1 (by simp)
          · rw [if_neg hba] at h1
            have habeq : a = b := le_antisymm (not_lt.mp hba) (not_lt.mp hab)
            by_cases hbc : b < c
            · rw [if_pos (habeq ▸ hbc)]
            · rw [if_neg hbc] at h2
              by_cases hcb : c < b
              · rw [if_pos hcb] at h2; exact absurd h2 (by simp)
              · have hbceq : b = c := le_antisymm (not_lt.mp hcb) (not_lt.mp hbc)
                have hac : ¬ a < c := hbceq ▸ habeq ▸ lt_irrefl a
                have hca : ¬ c < a := habeq ▸ hbceq ▸ lt_irrefl c
                rw [if_neg hcb] at h2
                rw [if_neg hac, if_neg hca]
                exact ih bs cs h1 h2

theorem charListLt_asymm {as bs : List Char} (h : charListLt as bs = true) :
    charListLt bs as = false := by
  by_contra hcon
  have h2 : charListLt bs as = true := by
    cases hval : charListLt bs as
    · exact absurd hval hcon
    · rfl
  have := charListLt_trans as bs as h h2
  rw [charListLt_irrefl] at this
  exact absurd this (by simp)

theorem charListLt_trichotomy :
    ∀ as bs : List Char, charListLt as bs = true ∨ as = bs ∨ charListLt bs as = true := by
  intro as
  induction as with
  | nil =>
    intro bs
    cases bs with
    | nil => exact Or.inr (Or.inl rfl)
    | cons b bs => exact Or.inl rfl
  | cons a as ih =>
    intro bs
    cases bs with
    | nil => exact Or.inr (Or.inr rfl)
    | cons b bs =>
      by_cases hab : a < b
      · exact Or.inl (by rw [charListLt, if_pos hab])
      · by_cases hba : b < a
        · exact Or.inr (Or.inr (by rw [charListLt, if_pos hba]))
        · have heq : a = b := le_antisymm (not_lt.mp hba) (not_lt.mp hab)
          subst heq
          rcases ih bs with h | h | h
          · exact Or.inl (by rw [charListLt, if_neg hab, if_neg hab]; exact h)
          · exact Or.inr (Or.inl (by rw [h]))
          · exact Or.inr (Or.inr (by rw [charListLt, if_neg hab, if_neg hab]; exact h))

/-- Strict codepoint-lexicographic order on strings. -/
def strLtB (a b : String) : Bool := charListLt a.toList b.toList

/-- Non-strict codepoint-lexicographic order on strings. -/
def strLeB (a b : String) : Bool := ! charListLt b.toList a.toList

theorem strLtB_trans {a b c : String} (h1 : strLtB a b = true) (h2 : strLtB b c = true) :
    strLtB a c = true :=
  charListLt_trans _ _ _ h1 h2

theorem strLeB_trans {a b c : String} (h1 : strLeB a b = true) (h2 : strLeB b c = true) :
    strLeB a c = true := by
  unfold strLeB at h1 h2 ⊢
  simp only [Bool.not_eq_true'] at h1 h2 ⊢
  by_contra hcon
  have hca : charListLt c.toList a.toList = true := by
    cases hval : charListLt c.toList a.toList
    · exact absurd hval hcon
    · rfl
  rcases charListLt_trichotomy c.toList b.toList with h | h | h
  · rw [h] at h2; exact absurd h2 (by simp)
  · rw [← h] at h1; rw [hca] at h1; exact absurd h1 (by simp)
  · have := charListLt_trans b.toList c.toList a.toList h hca
    rw [this] at h1; exact absurd h1 (by simp)

/-- The ordering used by all three `getTables` queries:
`ORDER BY table_schema, table_type DESC, table_name` — note the **descending**
type component. -/
def catalogOrder (a b : CatalogTable) : Prop :=
  strLtB a.schema b.schema = true ∨
    (a.schema = b.schema ∧
      (strLtB b.tableType a.tableType = true ∨
        (b.tableType = a.tableType ∧ strLeB a.name b.name = true)))

instance : DecidableRel catalogOrder := fun a b =>
  inferInstanceAs (Decidable (strLtB a.schema b.schema = true ∨
    (a.schema = b.schema ∧
      (strLtB b.tableType a.tableType = true ∨
        (b.tableType = a.tableType ∧ strLeB a.name b.name = true)))))

theorem string_eq_of_toList_eq {a b : String} (h : a.toList = b.toList) : a = b :=
  String.toList_inj.mp h

instance : IsTotal CatalogTable catalogOrder := by
  constructor
  intro a b
  rcases charListLt_trichotomy a.schema.toList b.schema.toList with h | h | h
  · exact Or.inl (Or.inl h)
  · have hs : a.schema = b.schema := string_eq_of_toList_eq h
    rcases charListLt_trichotomy a.tableType.toList b.tableType.toList with ht | ht | ht
    · exact Or.inr (Or.inr ⟨hs.symm, Or.inl ht⟩)
    · have htt : a.tableType = b.tableType := string_eq_of_toList_eq ht
      by_cases hn : charListLt b.name.toList a.name.toList
      · exact Or.inr (Or.inr ⟨hs.symm, Or.inr ⟨htt, by
          unfold strLeB
          rw [charListLt_asymm hn]
          rfl⟩⟩)
      · exact Or.inl (Or.inr ⟨hs, Or.inr ⟨htt.symm, by
          unfold strLeB
          rw [Bool.not_eq_true] at hn
          rw [hn]
          rfl⟩⟩)
    · exact Or.inl (Or.inr ⟨hs, Or.inl ht⟩)
  · exact Or.inr (Or.inl h)

instance : IsTrans CatalogTable catalogOrder := by
  constructor
  intro a b c hab hbc
  rcases hab with hab | ⟨habs, habi⟩
  · rcases hbc with hbc | ⟨hbcs, _⟩
    · exact Or.inl (strLtB_trans hab hbc)
    · exact Or.inl (hbcs ▸ hab)
  · rcases hbc with hbc | ⟨hbcs, hbci⟩
    · exact Or.inl (habs ▸ hbc)
    · refine Or.inr ⟨habs.trans hbcs, ?_⟩
      rcases habi with habi | ⟨habt, habn⟩
      · rcases hbci with hbci | ⟨hbct, _⟩
        · exact Or.inl (strLtB_trans hbci habi)
        · exact Or.inl (hbct ▸ habi)
      · rcases hbci with hbci | ⟨hbct, hbcn⟩
        · exact Or.inl (habt ▸ hbci)
        · exact Or.inr ⟨hbct.trans habt, strLeB_trans habn hbcn⟩

/-- A catalog row shaped into the `TableInfo` the adapters return
(`full_table_name` is schema-qualified with a dot). -/
def toTableInfo (t : CatalogTable) : TableInfo :=
  { table_name := t.name, schema_name := t.schema,
    full_table_name := t.schema ++ "." ++ t.name, table_type := t.tableType }

/-- Embeds `PostgreSQLConnection.getTables`: visible catalog rows, ordered by
`table_schema, table_type DESC, table_name`, shaped into `TableInfo`. -/
def PostgreSQLConnection.getTables (catalog : List CatalogTable) : List TableInfo :=
  ((catalog.filter (visibleIn pgSystemSchemas)).insertionSort catalogOrder).map toTableInfo

/-- Embeds `MySQLConnection.getTables`: same query shape against MySQL's catalog,
with its own denylist. -/
def MySQLConnection.getTables (catalog : List CatalogTable) : List TableInfo :=
  ((catalog.filter (visibleIn mysqlSystemSchemas)).insertionSort catalogOrder).map toTableInfo

/-- Embeds `MSSQLConnection.getTables`: same query shape against SQL Server's
catalog, with its own denylist. -/
def MSSQLConnection.getTables (catalog : List CatalogTable) : List TableInfo :=
  ((catalog.filter (visibleIn mssqlSystemSchemas)).insertionSort catalogOrder).map toTableInfo

/-- The order the source's `ORDER BY` actually produces, on `TableInfo`:
schema ascending, then table type **descending** (so `VIEW` rows precede
`BASE TABLE` rows), then name ascending. -/
def tableInfoOrder (a b : TableInfo) : Prop :=
  strLtB a.schema_name b.schema_name = true ∨
    (a.schema_name = b.schema_name ∧
      (strLtB b.table_type a.table_type = true ∨
        (b.table_type = a.table_type ∧ strLeB a.table_name b.table_name = true)))

instance : DecidableRel tableInfoOrder := fun a b =>
  inferInstanceAs (Decidable (strLtB a.schema_name b.schema_name = true ∨
    (a.schema_name = b.schema_name ∧
      (strLtB b.table_type a.table_type = true ∨
        (b.table_type = a.table_type ∧ strLeB a.table_name b.table_name = true)))))

/-- Rank of a table type in the order claimed by the specification:
base tables before views. -/
def specTypeRank (t : String) : Nat := if t = "BASE TABLE" then 0 else 1

/-- The ordering the specification claims: schema, then type with tables
before views, then name. -/
def specTableOrder (a b : TableInfo) : Prop :=
  strLtB a.schema_name b.schema_name = true ∨
    (a.schema_name = b.schema_name ∧
      (specTypeRank a.table_type < specTypeRank b.table_type ∨
        (specTypeRank a.table_type = specTypeRank b.table_type ∧
          strLeB a.table_name b.table_name = true)))

instance : DecidableRel specTableOrder := fun a b =>
  inferInstanceAs (Decidable (strLtB a.schema_name b.schema_name = true ∨
    (a.schema_name = b.schema_name ∧
      (specTypeRank a.table_type < specTypeRank b.table_type ∨
        (specTypeRank a.table_type = specTypeRank b.table_type ∧
          strLeB a.table_name b.table_name = true)))))

/-- A catalog holding one base table and one view of the same schema. -/
def mixedCatalog : List CatalogTable :=
  [⟨"public", "b", "BASE TABLE"⟩, ⟨"public", "a", "VIEW"⟩]

/-- C6, counterexample: `ORDER BY table_type DESC` sorts `'VIEW'` before
`'BASE TABLE'`, so `getTables` lists views **before** base tables of the same
schema, not after them as the claim states. -/
theorem getTables_views_first_counterexample :
    PostgreSQLConnection.getTables mixedCatalog =
      [⟨"a", "public", "public.a", "VIEW"⟩, ⟨"b", "public", "public.b", "BASE TABLE"⟩] ∧
    ¬ (PostgreSQLConnection.getTables mixedCatalog).Pairwise specTableOrder := by
  have hout : PostgreSQLConnection.getTables mixedCatalog =
      [⟨"a", "public", "public.a", "VIEW"⟩, ⟨"b", "public", "public.b", "BASE TABLE"⟩] := by
    rfl
  refine ⟨hout, ?_⟩
  rw [hout]
  intro hpair
  have hrel := List.rel_of_pairwise_cons hpair (List.mem_singleton.mpr rfl)
  revert hrel
  decide

/-- C6, amended: `getTables` returns exactly the base tables and views of the
non-system schemas (per adapter denylist), ordered by schema name, then by
table type **descending** — views before base tables — then by table name. -/
theorem getTables_ordering :
    ∀ catalog : List CatalogTable,
      (PostgreSQLConnection.getTables catalog).Pairwise tableInfoOrder ∧
      (PostgreSQLConnection.getTables catalog).Perm
        ((catalog.filter (visibleIn pgSystemSchemas)).map toTableInfo) ∧
      (MySQLConnection.getTables catalog).Pairwise tableInfoOrder ∧
      (MySQLConnection.getTables catalog).Perm
        ((catalog.filter (visibleIn mysqlSystemSchemas)).map toTableInfo) ∧
      (MSSQLConnection.getTables catalog).Pairwise tableInfoOrder ∧
      (MSSQLConnection.getTables catalog).Perm
        ((catalog.filter (visibleIn mssqlSystemSchemas)).map toTableInfo) := by
  intro catalog
  refine ⟨?_, ?_, ?_, ?_, ?_, ?_⟩
  · rw [PostgreSQLConnection.getTables, List.pairwise_map]
    exact (List.sorted_insertionSort catalogOrder _).imp (fun h => h)
  · exact (List.perm_insertionSort catalogOrder _).map toTableInfo
  · rw [MySQLConnection.getTables, List.pairwise_map]
    exact (List.sorted_insertionSort catalogOrder _).imp (fun h => h)
  · exact (List.perm_insertionSort catalogOrder _).map toTableInfo
  · rw [MSSQLConnection.getTables, List.pairwise_map]
    exact (List.sorted_insertionSort catalogOrder _).imp (fun h => h)
  · exact (List.perm_insertionSort catalogOrder _).map toTableInfo

/-! ## Bracket-notation filter parsing (`parseFiltersFromSearchParams`) -/

/-- An ECMAScript LineTerminator code point: LF, CR, LINE SEPARATOR
(U+2028) or PARAGRAPH SEPARATOR (U+2029).  The regex `.` does **not**
match these. -/
def isLineTerm (c : Char) : Bool :=
  c = '\n' || c = '\r' || c.toNat = 0x2028 || c.toNat = 0x2029

/-- The full set of code points removed by `String.prototype.trim`:
ECMAScript WhiteSpace (TAB, VT, FF, ZWNBSP U+FEFF, and the Unicode
Space_Separator category: SPACE, NBSP U+00A0, U+1680, U+2000–U+200A,
U+202F, U+205F, U+3000) together with the LineTerminator code points. -/
def jsWhitespace (c : Char) : Bool :=
  c = '\t' || c.toNat = 0x0b || c.toNat = 0x0c || c.toNat = 0xfeff ||
    c = ' ' || c.toNat = 0xa0 || c.toNat = 0x1680 ||
    (0x2000 ≤ c.toNat && c.toNat ≤ 0x200a) ||
    c.toNat = 0x202f || c.toNat = 0x205f || c.toNat = 0x3000 ||
    isLineTerm c

/-- Embeds `String.prototype.trim` on a character list. -/
def trimChars (cs : List Char) : List Char :=
  ((cs.dropWhile jsWhitespace).reverse.dropWhile jsWhitespace).reverse

/-- Embeds `value.split(":")` on a character list: splits at **every** colon. -/
def splitCols : List Char → List (List Char)
  | [] => [[]]
  | c :: cs =>
    match splitCols cs with
    | [] => [[]]
    | g :: gs => if c = ':' then [] :: g :: gs else (c :: g) :: gs

theorem splitCols_ne_nil (cs : List Char) : splitCols cs ≠ [] := by
  cases cs with
  | nil => simp [splitCols]
  | cons c cs =>
    rw [splitCols]
    rcases h : splitCols cs with - | ⟨g, gs⟩
    · simp
    · by_cases hc : c = ':' <;> simp [hc]

/-- Embeds `parts.join(":")` (the JavaScript `Array.prototype.join` with a colon). -/
def joinColon : List (List Char) → List Char
  | [] => []
  | [g] => g
  | g :: g' :: gs => g ++ ':' :: joinColon (g' :: gs)

theorem joinColon_cons_cons (c : Char) (g : List Char) (gs : List (List Char)) :
    joinColon ((c :: g) :: gs) = c :: joinColon (g :: gs) := by
  cases gs <;> rfl

/-- Splitting at the colons and joining with colons is the identity. -/
theorem joinColon_splitCols (cs : List Char) : joinColon (splitCols cs) = cs := by
  induction cs with
  | nil => rfl
  | cons c cs ih =>
    rcases h : splitCols cs with - | ⟨g, gs⟩
    · exact absurd h (splitCols_ne_nil cs)
    · rw [h] at ih
      simp only [splitCols, h]
      by_cases hc : c = ':'
      · rw [if_pos hc]
        subst hc
        show [] ++ ':' :: joinColon (g :: gs) = ':' :: cs
        rw [List.nil_append, ih]
      · rw [if_neg hc, joinColon_cons_cons, ih]

/-- Splitting a colon-free chunk followed by a colon peels off that chunk. -/
theorem splitCols_append_colon (a b : List Char) (ha : ':' ∉ a) :
    splitCols (a ++ ':' :: b) = a :: splitCols b := by
  induction a with
  | nil =>
    rw [List.nil_append]
    rcases h : splitCols b with - | ⟨g, gs⟩
    · exact absurd h (splitCols_ne_nil b)
    · simp only [splitCols, h]
      simp [← h]
  | cons x a ih =>
    have hx : x ≠ ':' := fun hcon => ha (hcon ▸ List.mem_cons_self x a)
    have ha' : ':' ∉ a := fun hcon => ha (List.mem_cons_of_mem x hcon)
    rw [List.cons_append]
    simp only [splitCols, ih ha']
    rw [if_neg hx]

/-- The key side of the bracket notation: a key matches
`/^filters\[(.+)\]$/` exactly when it starts with `filters[`, ends with `]`,
and has at least one character in between, none of which is a line
terminator (`.` does not match those, and since `\]$` pins the final
bracket, the greedy capture is forced to be everything between the fixed
prefix and that last character — a line terminator anywhere inside it makes
the whole match fail). -/
def parseFilterKey (k : List Char) : Option (List Char) :=
  if k.take 8 = "filters[".toList ∧ 10 ≤ k.length ∧ k.getLast? = some ']' ∧
      ((k.drop 8).dropLast).all (fun c => ! isLineTerm c)
  then some ((k.drop 8).dropLast)
  else none

/-- Embeds `parseFiltersFromSearchParams` (`lib/utils.ts`): for every `(key, value)`
pair whose key matches the filter bracket pattern, split the value at its
colons, take the first part as the operator and rejoin the rest as the
value, and keep the filter only when that value is truthy after trimming. -/
def parseFiltersFromSearchParams (params : List (String × String)) : List Filter :=
  params.filterMap (fun kv =>
    match parseFilterKey kv.1.toList with
    | none => none
    | some colChars =>
      match splitCols kv.2.toList with
      | [] => none
      | op :: rest =>
        let actual := joinColon rest
        if trimChars actual = [] then none
        else some { column := String.mk colChars, operator := String.mk op,
                    value := String.mk actual })

/-- The UI's serialization of a pending filter into the same bracket
notation: key `filters[column]`, value `operator:value`. -/
def serializeFilterParam (f : Filter) : String × String :=
  ("filters[" ++ f.column ++ "]", f.operator ++ ":" ++ f.value)

/-- C5, counterexample: a filter whose value is `" "` (non-empty, but
whitespace-only) is dropped by the parse — `actualValue.trim()` is falsy —
so the round trip loses it. -/
theorem parseFilters_roundtrip_counterexample :
    parseFiltersFromSearchParams [serializeFilterParam ⟨"age", ">", " "⟩] = [] ∧
    ([] : List Filter) ≠ [⟨"age", ">", " "⟩] := by
  constructor
  · rfl
  · intro h
    exact absurd h (by simp)

theorem toList_append (a b : String) : (a ++ b).toList = a.toList ++ b.toList := by
  cases a
  cases b
  rfl

/-- C5, amended: the bracket-notation round trip restores the filter exactly
whenever the column is non-empty and free of line terminators (which the
regex `.` cannot match), the operator contains no colon, and the value has a
character outside the JavaScript whitespace set; in particular the parse
splits on the first colon only, so values containing colons survive the
round trip. -/
theorem parseFilters_roundtrip :
    ∀ (col op val : String),
      col.toList ≠ [] →
      col.toList.all (fun c => ! isLineTerm c) = true →
      ':' ∉ op.toList →
      trimChars val.toList ≠ [] →
      parseFiltersFromSearchParams [serializeFilterParam ⟨col, op, val⟩] =
        [⟨col, op, val⟩] := by
  intro col op val hcol hterm hop hval
  have hklist : ("filters[" ++ col ++ "]").toList =
      "filters[".toList ++ (col.toList ++ [']']) := by
    rw [toList_append, toList_append]
    simp
  have hmid : ((("filters[".toList ++ (col.toList ++ [']'])).drop 8).dropLast) =
      col.toList := by
    rw [show (8 : Nat) = ("filters[".toList).length from rfl, List.drop_left]
    exact List.dropLast_concat ..
  have hkey : parseFilterKey ("filters[" ++ col ++ "]").toList = some col.toList := by
    rw [parseFilterKey, hklist]
    rw [if_pos]
    · rw [hmid]
    · refine ⟨?_, ?_, ?_, ?_⟩
      · rw [show (8 : Nat) = ("filters[".toList).length from rfl, List.take_left]
      · have hlen : 1 ≤ col.toList.length := by
          cases hc : col.toList with
          | nil => exact absurd hc hcol
          | cons x xs => simp
        have h8 : ("filters[".toList).length = 8 := rfl
        simp only [List.length_append, h8, List.length_cons, List.length_nil]
        omega
      · rw [← List.append_assoc]
        exact List.getLast?_concat _
      · rw [hmid]
        exact hterm
  have hvlist : (op ++ ":" ++ val).toList = op.toList ++ ':' :: val.toList := by
    rw [toList_append, toList_append]
    simp
  have hsplit : splitCols (op ++ ":" ++ val).toList = op.toList :: splitCols val.toList := by
    rw [hvlist]
    exact splitCols_append_colon _ _ hop
  simp only [parseFiltersFromSearchParams, serializeFilterParam, List.filterMap_cons,
    List.filterMap_nil, hkey, hsplit, joinColon_splitCols, if_neg hval]
  rfl

/-- Witness for the amended C5 round trip, with a colon inside the value. -/
theorem parseFilters_roundtrip_witness :
    parseFiltersFromSearchParams [serializeFilterParam ⟨"age", ">", "25:30"⟩] =
      [⟨"age", ">", "25:30"⟩] :=
  parseFilters_roundtrip "age" ">" "25:30" (by decide) (by decide) (by decide) (by decide)

/-! ## Schema-for-AI formatter (`formatSchemaForAI`, `lib/db-schema.ts`) -/

/-- The column fields of `db-schema.ts`'s `ColumnInfo` that the formatter
reads (the length/precision/scale fields are never used by it). -/
structure ColumnInfo where
  column_name : String
  data_type : String
  is_nullable : String
  column_default : Option String
deriving DecidableEq, Repr

/-- Embeds `db-schema.ts`'s `TableSchema`. -/
structure TableSchema where
  table_name : String
  schema_name : String
  table_type : String
  columns : List ColumnInfo
deriving DecidableEq, Repr

/-- Embeds `formatSchemaForAI` (`lib/db-schema.ts`): the imperative `schemaText +=`
accumulation, embedded as left folds.  Note the `Columns:` line after each
header, the space before the parenthesis, the `NULL`/`NOT NULL` tag, and the
truthiness test on `column_default` (both `null` and `""` suppress the
`DEFAULT` clause). -/
def formatSchemaForAI (schemas : List TableSchema) : String :=
  schemas.foldl (fun acc t =>
    let acc1 := acc ++ ((if t.table_type = "VIEW" then "VIEW" else "TABLE") ++ ": " ++
      t.schema_name ++ "." ++ t.table_name ++ "\n")
    let acc2 := acc1 ++ "Columns:\n"
    let acc3 := t.columns.foldl (fun acc2' c =>
      acc2' ++ ("  - " ++ c.column_name ++ ": " ++ c.data_type ++
        (match c.column_default with
          | some d => if d = "" then "" else " DEFAULT " ++ d
          | none => "") ++
        " (" ++ (if c.is_nullable = "YES" then "NULL" else "NOT NULL") ++ ")\n")) acc2
    acc3 ++ "\n") "Database Schema Information:\n\n"

/-- Concatenation of a list of strings. -/
def concatAll : List String → String
  | [] => ""
  | s :: rest => s ++ concatAll rest

/-- A column line exactly as the claim words it: nullability suffix
`NULLABLE`/`NOT NULL` appended directly after the type and default. -/
def specColumnLineClaim (c : ColumnInfo) : String :=
  concatAll ["  - ", c.column_name, ": ", c.data_type,
    (match c.column_default with
      | some d => if d = "" then "" else " DEFAULT " ++ d
      | none => ""),
    "(", (if c.is_nullable = "YES" then "NULLABLE" else "NOT NULL"), ")"]

/-- The whole document as the claim words it: per table a header line
followed directly by one line per column. -/
def specFormatClaim (schemas : List TableSchema) : String :=
  concatAll (schemas.map (fun t =>
    (if t.table_type = "VIEW" then "VIEW" else "TABLE") ++ ": " ++
      t.schema_name ++ "." ++ t.table_name ++ "\n" ++
      concatAll (t.columns.map (fun c => specColumnLineClaim c ++ "\n"))))

/-- A one-table schema snapshot used as concrete input. -/
def sampleSchema : TableSchema :=
  { table_name := "users", schema_name := "public", table_type := "BASE TABLE",
    columns :=
      [{ column_name := "id", data_type := "integer", is_nullable := "NO",
         column_default := some "0" },
       { column_name := "email", data_type := "text", is_nullable := "YES",
         column_default := none }] }

/-- C8, counterexample: the formatter tags nullable columns `(NULL)` — with a
space before the parenthesis and after a `Columns:` line — not `(NULLABLE)`
as the claim states, so its output differs from the claimed format. -/
theorem formatSchemaForAI_counterexample :
    formatSchemaForAI [sampleSchema] =
      "Database Schema Information:\n\nTABLE: public.users\nColumns:\n  - id: integer DEFAULT 0 (NOT NULL)\n  - email: text (NULL)\n\n" ∧
    specFormatClaim [sampleSchema] =
      "TABLE: public.users\n  - id: integer DEFAULT 0(NOT NULL)\n  - email: text(NULLABLE)\n" ∧
    formatSchemaForAI [sampleSchema] ≠ specFormatClaim [sampleSchema] := by
  refine ⟨rfl, rfl, ?_⟩
  intro h
  rw [show formatSchemaForAI [sampleSchema] =
      "Database Schema Information:\n\nTABLE: public.users\nColumns:\n  - id: integer DEFAULT 0 (NOT NULL)\n  - email: text (NULL)\n\n" from rfl,
    show specFormatClaim [sampleSchema] =
      "TABLE: public.users\n  - id: integer DEFAULT 0(NOT NULL)\n  - email: text(NULLABLE)\n" from rfl] at h
  exact absurd h (by decide)

/-- A column line as the amended claim words it: data type, an optional
` DEFAULT x` clause (suppressed for a null or empty default), a space, and
`(NULL)` for nullable columns or `(NOT NULL)` otherwise. -/
def specColumnLineAmended (c : ColumnInfo) : String :=
  concatAll ["  - ", c.column_name, ": ", c.data_type,
    (match c.column_default with
      | some d => if d = "" then "" else " DEFAULT " ++ d
      | none => ""),
    " (", (if c.is_nullable = "YES" then "NULL" else "NOT NULL"), ")"]

/-- A table block as the amended claim words it: the `TABLE:`/`VIEW:` header
line, a `Columns:` line, one line per column, and a closing blank line. -/
def specTableBlockAmended (t : TableSchema) : String :=
  (if t.table_type = "VIEW" then "VIEW" else "TABLE") ++ ": " ++
    t.schema_name ++ "." ++ t.table_name ++ "\n" ++ "Columns:\n" ++
    concatAll (t.columns.map (fun c => specColumnLineAmended c ++ "\n")) ++ "\n"

/-- The whole document as the amended claim words it. -/
def specFormatAmended (schemas : List TableSchema) : String :=
  "Database Schema Information:\n\n" ++ concatAll (schemas.map specTableBlockAmended)

theorem foldl_append_concatAll {α : Type} (g : α → String) :
    ∀ (l : List α) (acc : String),
      l.foldl (fun a x => a ++ g x) acc = acc ++ concatAll (l.map g) := by
  intro l
  induction l with
  | nil =>
    intro acc
    show acc = acc ++ ""
    rw [String.append_empty]
  | cons x xs ih =>
    intro acc
    show xs.foldl _ (acc ++ g x) = acc ++ concatAll (g x :: xs.map g)
    rw [ih (acc ++ g x)]
    show acc ++ g x ++ concatAll (xs.map g) = acc ++ (g x ++ concatAll (xs.map g))
    exact String.append_assoc ..

/-- C8, amended: `formatSchemaForAI` is a pure function of the schema
snapshot producing, after a fixed preamble, one block per table or view: a
header line `TABLE: schema.name` or `VIEW: schema.name`, a `Columns:` line,
then one line per column of the form
`  - name: data_type[ DEFAULT x] (NULL|NOT NULL)` — the nullability suffix is
`NULL` for nullable columns — followed by a blank line; the `DEFAULT` clause
appears exactly when the column has a non-empty default. -/
theorem formatSchemaForAI_format :
    ∀ schemas : List TableSchema, formatSchemaForAI schemas = specFormatAmended schemas := by
  intro schemas
  unfold formatSchemaForAI specFormatAmended
  have hbody : ∀ (acc : String) (t : TableSchema),
      (let acc1 := acc ++ ((if t.table_type = "VIEW" then "VIEW" else "TABLE") ++ ": " ++
        t.schema_name ++ "." ++ t.table_name ++ "\n")
      let acc2 := acc1 ++ "Columns:\n"
      let acc3 := t.columns.foldl (fun acc2' c =>
        acc2' ++ ("  - " ++ c.column_name ++ ": " ++ c.data_type ++
          (match c.column_default with
            | some d => if d = "" then "" else " DEFAULT " ++ d
            | none => "") ++
          " (" ++ (if c.is_nullable = "YES" then "NULL" else "NOT NULL") ++ ")\n")) acc2
      acc3 ++ "\n") = acc ++ specTableBlockAmended t := by
    intro acc t
    show (t.columns.foldl _
        ((acc ++ ((if t.table_type = "VIEW" then "VIEW" else "TABLE") ++ ": " ++
          t.schema_name ++ "." ++ t.table_name ++ "\n")) ++ "Columns:\n")) ++ "\n" =
      acc ++ specTableBlockAmended t
    rw [foldl_append_concatAll (fun c : ColumnInfo =>
      "  - " ++ c.column_name ++ ": " ++ c.data_type ++
        (match c.column_default with
          | some d => if d = "" then "" else " DEFAULT " ++ d
          | none => "") ++
        " (" ++ (if c.is_nullable = "YES" then "NULL" else "NOT NULL") ++ ")\n")]
    unfold specTableBlockAmended
    have hline : ∀ c : ColumnInfo,
        "  - " ++ c.column_name ++ ": " ++ c.data_type ++
          (match c.column_default with
            | some d => if d = "" then "" else " DEFAULT " ++ d
            | none => "") ++
          " (" ++ (if c.is_nullable = "YES" then "NULL" else "NOT NULL") ++ ")\n" =
        specColumnLineAmended c ++ "\n" := by
      intro c
      cases hd : c.column_default <;>
        simp [specColumnLineAmended, concatAll, hd, String.append_assoc,
          String.append_empty, String.empty_append]
    simp only [hline]
    simp [specTableBlockAmended, String.append_assoc]
  simp only [hbody]
  rw [foldl_append_concatAll specTableBlockAmended]

/-! ## Connection factory (`getDatabaseConnection` / `closeDatabaseConnection`) -/

/-- The repository's `DatabaseConfig` (the numeric `parseInt` on the port is
not modelled: the raw environment string is carried). -/
structure DatabaseConfig where
  dbType : String
  host : String
  port : String
  database : String
  username : String
  password : String
deriving DecidableEq, Repr

/-- The process environment, as a partial map from variable names. -/
structure EnvVars where
  get : String → Option String

/-- JavaScript truthiness of an environment variable: set and non-empty. -/
def envTruthy (env : EnvVars) (key : String) : Bool :=
  match env.get key with
  | some v => v ≠ ""
  | none => false

/-- Embeds `process.env.X || default`. -/
def envOrDefault (env : EnvVars) (key defaultVal : String) : String :=
  match env.get key with
  | some v => if v = "" then defaultVal else v
  | none => defaultVal

/-- Embeds `createDatabaseConfig`: picks the engine from whichever host variable is
set, in the fixed precedence PostgreSQL, MSSQL, MySQL, defaulting to
PostgreSQL when none is set. -/
def createDatabaseConfig (env : EnvVars) : DatabaseConfig :=
  if envTruthy env "POSTGRES_HOST" then
    { dbType := "postgresql", host := envOrDefault env "POSTGRES_HOST" "localhost",
      port := envOrDefault env "POSTGRES_PORT" "5432",
      database := envOrDefault env "POSTGRES_DB" "",
      username := envOrDefault env "POSTGRES_USER" "",
      password := envOrDefault env "POSTGRES_PASSWORD" "" }
  else if envTruthy env "MSSQL_HOST" then
    { dbType := "mssql", host := envOrDefault env "MSSQL_HOST" "localhost",
      port := envOrDefault env "MSSQL_PORT" "1433",
      database := envOrDefault env "MSSQL_DB" "",
      username := envOrDefault env "MSSQL_USER" "",
      password := envOrDefault env "MSSQL_PASSWORD" "" }
  else if envTruthy env "MYSQL_HOST" then
    { dbType := "mysql", host := envOrDefault env "MYSQL_HOST" "localhost",
      port := envOrDefault env "MYSQL_PORT" "3306",
      database := envOrDefault env "MYSQL_DB" "",
      username := envOrDefault env "MYSQL_USER" "",
      password := envOrDefault env "MYSQL_PASSWORD" "" }
  else
    { dbType := "postgresql", host := envOrDefault env "POSTGRES_HOST" "localhost",
      port := envOrDefault env "POSTGRES_PORT" "5432",
      database := envOrDefault env "POSTGRES_DB" "",
      username := envOrDefault env "POSTGRES_USER" "",
      password := envOrDefault env "POSTGRES_PASSWORD" "" }

/-- A connection object is identified by a creation serial number together
with the config it was built from. -/
abbrev Connection := Nat × DatabaseConfig

/-- The module-level mutable state of the factory file: the
`let dbConnection: DatabaseConnection | null` slot, plus a counter of how
many connections have ever been created (to make "a new connection was
created" observable in the model). -/
structure FactoryState where
  dbConnection : Option Connection
  created : Nat
deriving DecidableEq, Repr

/-- Embeds `getDatabaseConnection`: if the slot is empty, build the config from the
environment, create a connection and memoize it; otherwise return the
memoized connection unchanged. -/
def getDatabaseConnection (env : EnvVars) (s : FactoryState) :
    Connection × FactoryState :=
  match s.dbConnection with
  | some conn => (conn, s)
  | none =>
    let conn : Connection := (s.created, createDatabaseConfig env)
    (conn, { dbConnection := some conn, created := s.created + 1 })

/-- Embeds `closeDatabaseConnection`: disconnects and empties the slot. -/
def closeDatabaseConnection (s : FactoryState) : FactoryState :=
  { dbConnection := none, created := s.created }

/-- C9: the factory's connection is a process-wide singleton — the first
call creates it from the environment-derived config and memoizes it, every
later call returns the same object without creating anything, a call never
clears the slot, and after `closeDatabaseConnection` the next call creates a
fresh connection (a new serial number, bumping the creation counter). -/
theorem databaseConnection_singleton :
    (∀ (env : EnvVars) (s : FactoryState), s.dbConnection = none →
      getDatabaseConnection env s =
        ((s.created, createDatabaseConfig env),
         { dbConnection := some (s.created, createDatabaseConfig env),
           created := s.created + 1 })) ∧
    (∀ (env : EnvVars) (s : FactoryState) (conn : Connection),
      s.dbConnection = some conn → getDatabaseConnection env s = (conn, s)) ∧
    (∀ (env : EnvVars) (s : FactoryState),
      ((getDatabaseConnection env s).2).dbConnection =
        some (getDatabaseConnection env s).1) ∧
    (∀ s : FactoryState, (closeDatabaseConnection s).dbConnection = none) ∧
    (∀ (env : EnvVars) (s : FactoryState),
      (getDatabaseConnection env (closeDatabaseConnection s)).1 =
        (s.created, createDatabaseConfig env) ∧
      ((getDatabaseConnection env (closeDatabaseConnection s)).2).created =
        s.created + 1) := by
  refine ⟨?_, ?_, ?_, ?_, ?_⟩
  · intro env s h
    obtain ⟨slot, created⟩ := s
    subst h
    rfl
  · intro env s conn h
    obtain ⟨slot, created⟩ := s
    subst h
    rfl
  · intro env s
    obtain ⟨slot, created⟩ := s
    cases slot <;> rfl
  · intro s
    rfl
  · intro env s
    exact ⟨rfl, rfl⟩

/-- The empty environment (no engine host configured). -/
def emptyEnv : EnvVars := ⟨fun _ => none⟩

/-- Witness for C9: a first call on the empty state creates connection `0`,
and a second call on the resulting state returns the very same connection
with the state unchanged. -/
theorem databaseConnection_singleton_witness :
    getDatabaseConnection emptyEnv ⟨none, 0⟩ =
      ((0, createDatabaseConfig emptyEnv),
       { dbConnection := some (0, createDatabaseConfig emptyEnv), created := 1 }) ∧
    getDatabaseConnection emptyEnv
        ⟨some (0, createDatabaseConfig emptyEnv), 1⟩ =
      ((0, createDatabaseConfig emptyEnv),
       ⟨some (0, createDatabaseConfig emptyEnv), 1⟩) :=
  ⟨databaseConnection_singleton.1 emptyEnv ⟨none, 0⟩ rfl,
   databaseConnection_singleton.2.1 emptyEnv
     ⟨some (0, createDatabaseConfig emptyEnv), 1⟩
     (0, createDatabaseConfig emptyEnv) rfl⟩

/-! ## MSSQL mutation date heuristic (`isDateString` and value binding) -/

/-- One token of a date regular expression: a digit class or a literal. -/
inductive PatTok where
  | d : PatTok
  | lit (c : Char) : PatTok

/-- Matching a token sequence against a prefix of the input; returns the
unconsumed remainder on success. -/
def matchToks : List PatTok → List Char → Option (List Char)
  | [], cs => some cs
  | _ :: _, [] => none
  | PatTok.d :: ts, c :: cs => if c.isDigit then matchToks ts cs else none
  | PatTok.lit x :: ts, c :: cs => if c = x then matchToks ts cs else none

/-- A run of `n` digit tokens. -/
def digitToks (n : Nat) : List PatTok := List.replicate n PatTok.d

/-- Embeds `/^\d\x7b4\x7d-\d\x7b2\x7d-\d\x7b2\x7dT\d\x7b2\x7d:\d\x7b2\x7d:\d\x7b2\x7d/`
— the ISO shape, anchored only at the start. -/
def isoPat : List PatTok :=
  digitToks 4 ++ [PatTok.lit '-'] ++ digitToks 2 ++ [PatTok.lit '-'] ++ digitToks 2 ++
    [PatTok.lit 'T'] ++ digitToks 2 ++ [PatTok.lit ':'] ++ digitToks 2 ++
    [PatTok.lit ':'] ++ digitToks 2

/-- The SQL date-time shape (space instead of `T`), anchored at the start. -/
def sqlPat : List PatTok :=
  digitToks 4 ++ [PatTok.lit '-'] ++ digitToks 2 ++ [PatTok.lit '-'] ++ digitToks 2 ++
    [PatTok.lit ' '] ++ digitToks 2 ++ [PatTok.lit ':'] ++ digitToks 2 ++
    [PatTok.lit ':'] ++ digitToks 2

/-- The date-only shape `YYYY-MM-DD`, anchored at both ends. -/
def dateOnlyPat : List PatTok :=
  digitToks 4 ++ [PatTok.lit '-'] ++ digitToks 2 ++ [PatTok.lit '-'] ++ digitToks 2

/-- The `MM/DD/YYYY` shape, anchored at both ends. -/
def usSlashPat : List PatTok :=
  digitToks 2 ++ [PatTok.lit '/'] ++ digitToks 2 ++ [PatTok.lit '/'] ++ digitToks 4

/-- The `MM-DD-YYYY` shape, anchored at both ends. -/
def usDashPat : List PatTok :=
  digitToks 2 ++ [PatTok.lit '-'] ++ digitToks 2 ++ [PatTok.lit '-'] ++ digitToks 4

/-- Embeds `datePatterns.some((pattern) => pattern.test(value))`: the two
date-time patterns are prefix-anchored, the three date shapes are fully
anchored. -/
def matchesAnyDatePattern (cs : List Char) : Bool :=
  (matchToks isoPat cs).isSome || (matchToks sqlPat cs).isSome ||
    (matchToks dateOnlyPat cs == some []) || (matchToks usSlashPat cs == some []) ||
    (matchToks usDashPat cs == some [])

/-- Embeds `value.toLowerCase()` (character-wise). -/
def lowerString (s : String) : String := String.mk (s.toList.map Char.toLower)

/-- Whether `needle` is a prefix of `hay`. -/
def isPrefixOfCL : List Char → List Char → Bool
  | [], _ => true
  | _ :: _, [] => false
  | a :: as, b :: bs => a = b && isPrefixOfCL as bs

/-- Embeds `hay.includes(needle)` on character lists. -/
def containsSubCL (needle : List Char) : List Char → Bool
  | [] => needle.isEmpty
  | c :: cs => isPrefixOfCL needle (c :: cs) || containsSubCL needle cs

/-- The MSSQL adapter's column-type gate: the lowercased catalog data type
contains `datetime`, `date`, or `time`. -/
def mssqlTypeGate (dataType : String) : Bool :=
  containsSubCL ("datetime".toList) (lowerString dataType).toList ||
    containsSubCL ("date".toList) (lowerString dataType).toList ||
    containsSubCL ("time".toList) (lowerString dataType).toList

namespace MSSQLConnection

/-- Embeds `MSSQLConnection.isDateString`, parameterized by the JavaScript
`Date.parse` (`none` models `NaN`): non-empty, at least eight characters
after trimming, matching one of the five date patterns, and parsing to a
**strictly positive** timestamp. -/
def isDateString (dateParse : String → Option Int) (value : String) : Bool :=
  if value = "" then false
  else if (trimChars value.toList).length < 8 then false
  else if ¬ matchesAnyDatePattern value.toList then false
  else
    match dateParse value with
    | none => false
    | some t => decide (0 < t)

/-- The per-value binding step shared by the MSSQL adapter's
`insertTableRow` and `updateTableRow`: a string bound to a column whose
catalog type passes the date/time gate and which `isDateString` accepts is
converted to a native `Date` built from `Date.parse`; everything else is
bound unchanged. -/
def processMutationValue (dateParse : String → Option Int)
    (columnTypes : String → Option String) (column : String) (v : JSValue) : JSValue :=
  match v with
  | .jsStr s =>
    match columnTypes column with
    | some dataType =>
      if mssqlTypeGate dataType then
        if isDateString dateParse s then .jsDate ((dateParse s).getD 0) else .jsStr s
      else .jsStr s
    | none => .jsStr s
  | v => v

/-- Embeds `insertTableRow`'s parameter binding: each `(column, value)` of the
payload goes through `processMutationValue`. -/
def bindInsertValues (dateParse : String → Option Int)
    (columnTypes : String → Option String) (data : List (String × JSValue)) :
    List (String × JSValue) :=
  data.map (fun kv => (kv.1, processMutationValue dateParse columnTypes kv.1 kv.2))

/-- Embeds `updateTableRow`'s parameter binding: identical to the insert binding. -/
def bindUpdateValues (dateParse : String → Option Int)
    (columnTypes : String → Option String) (data : List (String × JSValue)) :
    List (String × JSValue) :=
  data.map (fun kv => (kv.1, processMutationValue dateParse columnTypes kv.1 kv.2))

end MSSQLConnection

/-- Whether `y` is a Gregorian leap year. -/
def isLeapYear (y : Int) : Bool :=
  (y.emod 4 = 0 && y.emod 100 ≠ 0) || y.emod 400 = 0

/-- Days in month `m` of year `y`. -/
def daysInMonth (y m : Int) : Int :=
  if m = 2 then (if isLeapYear y then 29 else 28)
  else if m = 4 ∨ m = 6 ∨ m = 9 ∨ m = 11 then 30
  else 31

/-- Days since 1970-01-01 of the civil date `(y, m, d)` (inverse of
`civilFromDays`, the standard days-from-civil computation). -/
def daysFromCivil (y m d : Int) : Int :=
  let y' := if m ≤ 2 then y - 1 else y
  let era := y'.ediv 400
  let yoe := y' - era * 400
  let mp := (m + 9).emod 12
  let doy := (153 * mp + 2).ediv 5 + d - 1
  let doe := yoe * 365 + yoe.ediv 4 - yoe.ediv 100 + doy
  era * 146097 + doe - 719468

/-- The decimal number denoted by a digit list. -/
def digitsToNat (cs : List Char) : Nat :=
  cs.foldl (fun a c => a * 10 + (c.toNat - 48)) 0

/-- A partial model of ECMAScript `Date.parse`, covering exactly the
date-only `YYYY-MM-DD` form (parsed as UTC midnight, milliseconds since the
epoch; invalid month/day combinations give `NaN`, modelled as `none`).  All
other input shapes are mapped to `none`; the model is only ever applied to
date-only strings in the concrete statements below. -/
def dateParseModel (s : String) : Option Int :=
  match matchToks dateOnlyPat s.toList with
  | some [] =>
    let cs := s.toList
    let y : Int := digitsToNat (cs.take 4)
    let m : Int := digitsToNat ((cs.drop 5).take 2)
    let d : Int := digitsToNat ((cs.drop 8).take 2)
    if 1 ≤ m ∧ m ≤ 12 ∧ 1 ≤ d ∧ d ≤ daysInMonth y m then
      some (86400000 * daysFromCivil y m d)
    else none
  | _ => none

/-- A catalog reporting column `d` as `datetime`. -/
def dtColumnTypes : String → Option String :=
  fun c => if c = "d" then some "datetime" else none

/-- C7, counterexample: `"1970-01-01"` matches the date-only pattern, its
`Date.parse` succeeds (with value `0`, the epoch itself), and the column's
type is `datetime` — yet the string is **not** converted, because
`isDateString` additionally demands a strictly positive parsed timestamp. -/
theorem mssql_epoch_date_not_converted_counterexample :
    matchesAnyDatePattern ("1970-01-01".toList) = true ∧
    dateParseModel "1970-01-01" = some 0 ∧
    mssqlTypeGate "datetime" = true ∧
    MSSQLConnection.processMutationValue dateParseModel dtColumnTypes "d"
        (JSValue.jsStr "1970-01-01") =
      JSValue.jsStr "1970-01-01" := by
  refine ⟨by decide, by decide, by decide, rfl⟩

/-- C7, amended: in the MSSQL adapter's insert and update bindings, a string
value is converted to a native `Date` **iff** the column's catalog-reported
type contains `date`/`time` (lowercased), the string matches one of the date
patterns with at least eight non-whitespace-trimmed characters, and
`Date.parse` succeeds **with a strictly positive (post-epoch) timestamp**;
every other string — in particular every string bound to a column whose type
lacks the gate — passes through unchanged. -/
theorem mssql_mutation_date_coercion :
    ∀ (dateParse : String → Option Int) (columnTypes : String → Option String)
      (col : String) (s : String),
      ((∃ t, MSSQLConnection.processMutationValue dateParse columnTypes col
          (JSValue.jsStr s) = JSValue.jsDate t) ↔
        (∃ dataType, columnTypes col = some dataType ∧ mssqlTypeGate dataType = true ∧
          MSSQLConnection.isDateString dateParse s = true)) ∧
      ((∃ t, MSSQLConnection.processMutationValue dateParse columnTypes col
          (JSValue.jsStr s) = JSValue.jsDate t) ∨
        MSSQLConnection.processMutationValue dateParse columnTypes col
          (JSValue.jsStr s) = JSValue.jsStr s) ∧
      (∀ data, MSSQLConnection.bindInsertValues dateParse columnTypes data =
        data.map (fun kv =>
          (kv.1, MSSQLConnection.processMutationValue dateParse columnTypes kv.1 kv.2))) ∧
      (∀ data, MSSQLConnection.bindUpdateValues dateParse columnTypes data =
        MSSQLConnection.bindInsertValues dateParse columnTypes data) := by
  intro dateParse columnTypes col s
  refine ⟨?_, ?_, fun _ => rfl, fun _ => rfl⟩
  · rcases hct : columnTypes col with - | dataType
    · simp [MSSQLConnection.processMutationValue, hct]
    · by_cases hgate : mssqlTypeGate dataType <;>
        by_cases hds : MSSQLConnection.isDateString dateParse s <;>
          simp [MSSQLConnection.processMutationValue, hct, hgate, hds]
  · rcases hct : columnTypes col with - | dataType
    · exact Or.inr (by simp [MSSQLConnection.processMutationValue, hct])
    · by_cases hgate : mssqlTypeGate dataType
      · by_cases hds : MSSQLConnection.isDateString dateParse s
        · exact Or.inl ⟨(dateParse s).getD 0,
            by simp [MSSQLConnection.processMutationValue, hct, hgate, hds]⟩
        · exact Or.inr (by simp [MSSQLConnection.processMutationValue, hct, hgate, hds])
      · exact Or.inr (by simp [MSSQLConnection.processMutationValue, hct, hgate])

/-! ## MySQL `insertTableRow` and its `WHERE id = ?` follow-up select -/

namespace MySQLConnection

end MySQLConnection

/-- A MySQL base table as the engine stores it: column names, stored rows,
the auto-increment column (if any), and the next auto-increment value. -/
structure MySQLTable where
  name : String
  cols : List String
  rows : List RowJS
  autoIncCol : Option String
  nextId : Int

/-- The literal follow-up statement the adapter issues after the insert. -/
def mysqlInsertFollowUpQuery (t : MySQLTable) : String :=
  "SELECT * FROM `" ++ t.name ++ "` WHERE id = ?"

namespace MySQLConnection

end MySQLConnection

end DbUi
